import Mathlib

/-!
Verification of the `RouteIntegrityRegistry` contract
(`src/contracts/route-integrity-registry/src/lib.rs`).

The contract is a write-once registry of route commitments keyed by a
32-byte `route_hash`.  We shallowly embed it:

* 32-byte digests (`BytesN<32>`) become `Hash32 := List Nat` (the byte
  array, each entry a byte value);
* `Address` becomes an abstract identity value, embedded as `Nat`;
* the Soroban `Env` becomes an explicit record holding the persistent
  key-value store (an association list keyed by `Hash32`), the ledger
  timestamp (host clock reading), the contract's own address, the
  invoking caller's address, and the list of published events;
* `u64` arithmetic: timestamps and expiries are `Nat`; the one place
  the source performs u64 addition (`timestamp + MAX_EXPIRY_DURATION`)
  is modelled with an explicit wrap modulo `2^64`;
* fallible operations return `Except RegistryError _`, and stateful
  operations return the new `Env` explicitly.
-/

/-- 32-byte digest (`BytesN<32>`): the list of its byte values. -/
abbrev Hash32 := List Nat

/-- Abstract identity value (`Address`). -/
abbrev Address := Nat

/-- `const MAX_EXPIRY_DURATION: u64 = 315_360_000;` (10 years in seconds). -/
def MAX_EXPIRY_DURATION : Nat := 315360000

/-- Modulus of `u64` arithmetic. -/
def U64_MOD : Nat := 18446744073709551616

/-- Unchecked `u64` addition as performed by a release (wrapping) build:
`a + b` reduced modulo `2^64`. -/
def wrappingAdd64 (a b : Nat) : Nat := (a + b) % U64_MOD

/-- `RouteCommitment`: commitment metadata stored for each route. -/
structure RouteCommitment where
  rules_hash : Hash32
  solver_version_hash : Hash32
  committer : Address
  timestamp : Nat
  expiry : Nat
deriving DecidableEq, Repr

/-- `RegistryError`: the contract's error codes. -/
inductive RegistryError where
  | EmptyRouteHash
  | DuplicateCommitment
  | ExpiredTimestamp
  | ExpiryTooFar
  | NotFound
deriving DecidableEq, Repr

/-- A `RouteCommitted` event: topic `("commit", route_hash)` and payload
`(rules_hash, solver_version_hash, committer, timestamp, expiry)`. -/
structure CommitEvent where
  route_hash : Hash32
  rules_hash : Hash32
  solver_version_hash : Hash32
  committer : Address
  timestamp : Nat
  expiry : Nat
deriving DecidableEq, Repr

/-- The Soroban environment visible to this contract: persistent storage
keyed by `route_hash` (`CommitKey` is just the wrapped hash, so the key IS
the hash), the ledger timestamp, the contract's own address
(`env.current_contract_address()`), the invoking caller's identity (made
available by the host; never read by this contract), and published events. -/
structure Env where
  store : List (Hash32 × RouteCommitment)
  timestamp : Nat
  contract_address : Address
  caller : Address
  events : List CommitEvent
deriving DecidableEq, Repr

/-- `env.storage().persistent().has(&key)` on the association list. -/
def storageHas (store : List (Hash32 × RouteCommitment)) (k : Hash32) : Bool :=
  store.any (fun p => p.1 == k)

/-- `env.storage().persistent().get(&key)` on the association list. -/
def storageGet (store : List (Hash32 × RouteCommitment)) (k : Hash32) :
    Option RouteCommitment :=
  (store.find? (fun p => p.1 == k)).map Prod.snd

/-- `env.storage().persistent().set(&key, &value)`: overwrite if present,
append otherwise (Soroban `set` overwrites unconditionally). -/
def storageSet (store : List (Hash32 × RouteCommitment)) (k : Hash32)
    (v : RouteCommitment) : List (Hash32 × RouteCommitment) :=
  if storageHas store k then
    store.map (fun p => if p.1 == k then (k, v) else p)
  else
    store ++ [(k, v)]

/-- `is_zero_hash`: check whether a 32-byte hash is all zeros
(`bytes.iter().all(|&b| b == 0)`). -/
def is_zero_hash (h : Hash32) : Bool :=
  h.all (fun b => b == 0)

/-- The guard of the `ExpiryTooFar` check exactly as written in the source:
`expiry > timestamp + MAX_EXPIRY_DURATION`, the addition being an unchecked
`u64` addition (wrapping in a release build). -/
def expiryTooFarGuard (expiry timestamp : Nat) : Bool :=
  decide (expiry > wrappingAdd64 timestamp MAX_EXPIRY_DURATION)

/-- `commit_route(env, route_hash, rules_hash, solver_version_hash, expiry)`:
validates (zero hash, duplicate, expiry window), then stores the commitment
and publishes a `RouteCommitted` event.  Returns the `Result` together with
the environment after the call. -/
def commit_route (env : Env) (route_hash rules_hash solver_version_hash : Hash32)
    (expiry : Nat) : Except RegistryError Unit × Env :=
  let timestamp := env.timestamp
  if is_zero_hash route_hash then
    (Except.error RegistryError.EmptyRouteHash, env)
  else if storageHas env.store route_hash then
    (Except.error RegistryError.DuplicateCommitment, env)
  else if expiry ≠ 0 ∧ expiry ≤ timestamp then
    (Except.error RegistryError.ExpiredTimestamp, env)
  else if expiry ≠ 0 ∧ expiryTooFarGuard expiry timestamp then
    (Except.error RegistryError.ExpiryTooFar, env)
  else
    let committer := env.contract_address
    let commitment : RouteCommitment :=
      { rules_hash := rules_hash
        solver_version_hash := solver_version_hash
        committer := committer
        timestamp := timestamp
        expiry := expiry }
    let ev : CommitEvent :=
      { route_hash := route_hash
        rules_hash := rules_hash
        solver_version_hash := solver_version_hash
        committer := committer
        timestamp := timestamp
        expiry := expiry }
    (Except.ok (),
     { env with
        store := storageSet env.store route_hash commitment
        events := env.events ++ [ev] })

/-- `get_commit(env, route_hash)`: read the commitment, `NotFound` if absent. -/
def get_commit (env : Env) (route_hash : Hash32) :
    Except RegistryError RouteCommitment :=
  match storageGet env.store route_hash with
  | some c => Except.ok c
  | none => Except.error RegistryError.NotFound

/-- `has_commit(env, route_hash)`: existence check. -/
def has_commit (env : Env) (route_hash : Hash32) : Bool :=
  storageHas env.store route_hash

/-- `verify_commit(env, route_hash, expected_rules_hash, expected_solver_hash)`:
true iff the commitment exists and both stored digests match. -/
def verify_commit (env : Env) (route_hash expected_rules_hash expected_solver_hash : Hash32) :
    Bool :=
  match get_commit env route_hash with
  | Except.ok commit =>
      commit.rules_hash == expected_rules_hash
        && commit.solver_version_hash == expected_solver_hash
  | Except.error _ => false

/-- One external `commit_route` invocation: its arguments together with the
host clock reading at the moment of the call. -/
structure Call where
  route_hash : Hash32
  rules_hash : Hash32
  solver_version_hash : Hash32
  expiry : Nat
  time : Nat
deriving DecidableEq, Repr

/-- Apply one `commit_route` call: the host sets the ledger clock to the
call's time, then the contract runs. -/
def applyCall (env : Env) (c : Call) : Except RegistryError Unit × Env :=
  commit_route { env with timestamp := c.time }
    c.route_hash c.rules_hash c.solver_version_hash c.expiry

/-- Run a sequence of `commit_route` calls, keeping only the final state. -/
def runCalls (env : Env) (cs : List Call) : Env :=
  cs.foldl (fun e c => (applyCall e c).2) env

/-- Does some call in the sequence for key `k` succeed, starting from `env`? -/
def runSucceedsFor (env : Env) (cs : List Call) (k : Hash32) : Bool :=
  match cs with
  | [] => false
  | c :: rest =>
      let r := applyCall env c
      (c.route_hash == k && (r.1 matches Except.ok _)) || runSucceedsFor r.2 rest k

/-- A deployment-fresh environment: empty store, no events. -/
def initEnv (t : Nat) (self caller : Address) : Env :=
  { store := [], timestamp := t, contract_address := self, caller := caller,
    events := [] }

/-! ### Storage lemmas -/

theorem storageHas_append_single (st : List (Hash32 × RouteCommitment))
    (h : Hash32) (v : RouteCommitment) (k : Hash32) :
    storageHas (st ++ [(h, v)]) k = (storageHas st k || (h == k)) := by
  simp [storageHas, List.any_append]

theorem storageGet_none_iff_has_false (st : List (Hash32 × RouteCommitment))
    (k : Hash32) : storageGet st k = none ↔ storageHas st k = false := by
  induction st with
  | nil => simp [storageGet, storageHas]
  | cons p st ih =>
      by_cases hp : p.1 == k
      · simp [storageGet, storageHas, List.find?, hp]
      · simp only [storageGet, storageHas, List.find?, List.any_cons, hp] at *
        simp only [Bool.false_or]
        exact ih

theorem storageGet_some_preserved (st : List (Hash32 × RouteCommitment))
    (h k : Hash32) (v c : RouteCommitment)
    (hc : storageGet st k = some c) :
    storageGet (st ++ [(h, v)]) k = some c := by
  induction st with
  | nil => simp [storageGet] at hc
  | cons p st ih =>
      by_cases hp : p.1 == k
      · simp only [storageGet, List.find?, hp, List.cons_append] at *
        exact hc
      · simp only [storageGet, List.find?, hp, List.cons_append] at *
        exact ih hc

theorem storageGet_append_new (st : List (Hash32 × RouteCommitment))
    (k : Hash32) (v : RouteCommitment)
    (habs : storageHas st k = false) :
    storageGet (st ++ [(k, v)]) k = some v := by
  induction st with
  | nil => simp [storageGet, List.find?]
  | cons p st ih =>
      simp only [storageHas, List.any_cons, Bool.or_eq_false_iff] at habs
      simp only [storageGet, List.cons_append, List.find?, habs.1]
      exact ih (by simpa [storageHas] using habs.2)

/-! ### Characterization of `commit_route` -/

/-- The commitment record a successful `commit_route` stores. -/
def newCommitment (env : Env) (r s : Hash32) (e : Nat) : RouteCommitment :=
  { rules_hash := r, solver_version_hash := s, committer := env.contract_address,
    timestamp := env.timestamp, expiry := e }

/-- The event a successful `commit_route` publishes. -/
def newEvent (env : Env) (k r s : Hash32) (e : Nat) : CommitEvent :=
  { route_hash := k, rules_hash := r, solver_version_hash := s,
    committer := env.contract_address, timestamp := env.timestamp, expiry := e }

theorem commit_route_spec (env : Env) (k r s : Hash32) (e : Nat) :
    commit_route env k r s e =
      if is_zero_hash k then (Except.error RegistryError.EmptyRouteHash, env)
      else if storageHas env.store k then
        (Except.error RegistryError.DuplicateCommitment, env)
      else if e ≠ 0 ∧ e ≤ env.timestamp then
        (Except.error RegistryError.ExpiredTimestamp, env)
      else if e ≠ 0 ∧ expiryTooFarGuard e env.timestamp then
        (Except.error RegistryError.ExpiryTooFar, env)
      else
        (Except.ok (),
         { env with
            store := env.store ++ [(k, newCommitment env r s e)],
            events := env.events ++ [newEvent env k r s e] }) := by
  simp only [commit_route, storageSet, newCommitment, newEvent]
  split
  · rfl
  · split
    · rfl
    · rename_i h2
      split
      · rfl
      · split
        · rfl
        · simp [h2]

theorem commit_route_err_env (env : Env) (k r s : Hash32) (e : Nat)
    (err : RegistryError)
    (h : (commit_route env k r s e).1 = Except.error err) :
    (commit_route env k r s e).2 = env := by
  by_cases h1 : is_zero_hash k = true
  · simp [commit_route_spec, h1]
  · by_cases h2 : storageHas env.store k = true
    · simp [commit_route_spec, h1, h2]
    · by_cases h3 : e ≠ 0 ∧ e ≤ env.timestamp
      · simp [commit_route_spec, h1, h2, h3]
      · by_cases h4 : e ≠ 0 ∧ expiryTooFarGuard e env.timestamp
        · simp only [commit_route_spec, h1, h2, h3, h4]
          simp [h4.1]
        · simp [commit_route_spec, h1, h2, h3, h4] at h

theorem commit_route_ok_env (env : Env) (k r s : Hash32) (e : Nat)
    (h : (commit_route env k r s e).1 = Except.ok ()) :
    (commit_route env k r s e).2 =
      { env with
          store := env.store ++ [(k, newCommitment env r s e)],
          events := env.events ++ [newEvent env k r s e] } := by
  by_cases h1 : is_zero_hash k = true
  · simp [commit_route_spec, h1] at h
  · by_cases h2 : storageHas env.store k = true
    · simp [commit_route_spec, h1, h2] at h
    · by_cases h3 : e ≠ 0 ∧ e ≤ env.timestamp
      · simp [commit_route_spec, h1, h2, h3] at h
      · by_cases h4 : e ≠ 0 ∧ expiryTooFarGuard e env.timestamp
        · simp only [commit_route_spec, h1, h2, h3, h4] at h
          simp [h4.1] at h
        · simp [commit_route_spec, h1, h2, h3, h4]

theorem commit_route_ok_conditions (env : Env) (k r s : Hash32) (e : Nat)
    (h : (commit_route env k r s e).1 = Except.ok ()) :
    is_zero_hash k = false ∧ storageHas env.store k = false := by
  by_cases h1 : is_zero_hash k = true
  · simp [commit_route_spec, h1] at h
  · by_cases h2 : storageHas env.store k = true
    · simp [commit_route_spec, h1, h2] at h
    · simp_all

/-! ### Derived storage facts -/

theorem storageHas_of_get_some (st : List (Hash32 × RouteCommitment))
    (k : Hash32) (c : RouteCommitment) (h : storageGet st k = some c) :
    storageHas st k = true := by
  rcases Bool.eq_false_or_eq_true (storageHas st k) with ht | hf
  · exact ht
  · rw [(storageGet_none_iff_has_false st k).2 hf] at h
    cases h

theorem commit_preserves_absent_of_zero (env : Env) (h0 r s : Hash32) (e : Nat)
    (k : Hash32) (hzk : is_zero_hash k = true)
    (habs : storageHas env.store k = false) :
    storageHas (commit_route env h0 r s e).2.store k = false := by
  rcases hres : (commit_route env h0 r s e).1 with err | u
  · rw [commit_route_err_env env h0 r s e err hres]
    exact habs
  · cases u
    have hcond := commit_route_ok_conditions env h0 r s e hres
    rw [commit_route_ok_env env h0 r s e hres]
    simp only [storageHas_append_single]
    have hne : (h0 == k) = false := by
      by_cases hek : h0 = k
      · rw [hek, hzk] at hcond
        cases hcond.1
      · simp [hek]
    simp [habs, hne]

theorem runCalls_preserves_absent_of_zero (k : Hash32)
    (hzk : is_zero_hash k = true) (cs : List Call) (env : Env)
    (habs : storageHas env.store k = false) :
    storageHas (runCalls env cs).store k = false := by
  induction cs generalizing env with
  | nil => simpa [runCalls] using habs
  | cons c rest ih =>
      simp only [runCalls, List.foldl_cons] at *
      exact ih _ (commit_preserves_absent_of_zero _ _ _ _ _ k hzk habs)

/-! ### Concrete sample values used by the witnesses -/

/-- The all-zero 32-byte digest. -/
def zeroHash : Hash32 := List.replicate 32 0

/-- A nonzero 32-byte digest determined by a seed (first byte = seed). -/
def sampleHash (seed : Nat) : Hash32 := seed :: List.replicate 31 0

/-- A sample deployment-fresh environment: clock 1700000000, contract
address 7, caller 9. -/
def envSample : Env := initEnv 1700000000 7 9

/-! ### Claims -/

/-- Claim C8: whenever `commit_route` returns an error, the environment
after the call equals the environment before it — the store is completely
unchanged (no key written, no stored value altered) and the event list is
unchanged (nothing published).  All validation happens strictly before any
mutation, so a rejected call leaves no trace. -/
theorem c8_rejected_commit_no_trace (env : Env) (k r s : Hash32) (e : Nat)
    (err : RegistryError)
    (h : (commit_route env k r s e).1 = Except.error err) :
    (commit_route env k r s e).2 = env :=
  commit_route_err_env env k r s e err h

theorem c8_rejected_commit_no_trace_witness :
    (commit_route envSample zeroHash (sampleHash 2) (sampleHash 3) 5).1 =
        Except.error RegistryError.EmptyRouteHash ∧
      (commit_route envSample zeroHash (sampleHash 2) (sampleHash 3) 5).2 =
        envSample :=
  ⟨by rfl,
   c8_rejected_commit_no_trace envSample zeroHash (sampleHash 2) (sampleHash 3)
     5 RegistryError.EmptyRouteHash (by rfl)⟩

/-- Claim C7: for an all-zero `route_hash`, `commit_route` fails with
`EmptyRouteHash` whatever the other arguments, the store contents and the
clock value (and leaves the environment unchanged); consequently, in any
state reachable from a fresh deployment by any sequence of calls, no stored
entry has an all-zero key. -/
theorem c7_zero_route_hash_rejected (k : Hash32) (hz : is_zero_hash k = true) :
    (∀ env r s e, commit_route env k r s e =
        (Except.error RegistryError.EmptyRouteHash, env)) ∧
      (∀ t self caller cs,
        has_commit (runCalls (initEnv t self caller) cs) k = false) := by
  constructor
  · intro env r s e
    simp [commit_route_spec, hz]
  · intro t self caller cs
    exact runCalls_preserves_absent_of_zero k hz cs _ (by simp [initEnv, storageHas])

theorem c7_zero_route_hash_rejected_witness :
    is_zero_hash zeroHash = true ∧
      commit_route envSample zeroHash (sampleHash 2) (sampleHash 3) 0 =
        (Except.error RegistryError.EmptyRouteHash, envSample) ∧
      has_commit
          (runCalls (initEnv 1700000000 7 9)
            [{ route_hash := sampleHash 1, rules_hash := sampleHash 2,
               solver_version_hash := sampleHash 3, expiry := 0,
               time := 1700000000 }])
          zeroHash = false :=
  ⟨by decide,
   (c7_zero_route_hash_rejected zeroHash (by decide)).1 envSample
     (sampleHash 2) (sampleHash 3) 0,
   (c7_zero_route_hash_rejected zeroHash (by decide)).2 1700000000 7 9 _⟩

/-! ### Trace lemmas -/

theorem applyCall_preserves_absent (env : Env) (c : Call) (k : Hash32)
    (habs : storageHas env.store k = false)
    (hno : (c.route_hash == k &&
      ((applyCall env c).1 matches Except.ok _)) = false) :
    storageHas (applyCall env c).2.store k = false := by
  unfold applyCall at *
  rcases hres : (commit_route { env with timestamp := c.time } c.route_hash
      c.rules_hash c.solver_version_hash c.expiry).1 with err | u
  · rw [commit_route_err_env _ _ _ _ _ err hres]
    exact habs
  · cases u
    rw [hres] at hno
    simp only [Bool.and_eq_false_iff] at hno
    rcases hno with hno | hno
    · rw [commit_route_ok_env _ _ _ _ _ hres]
      simp only [storageHas_append_single]
      simp [habs, hno]
    · simp at hno

theorem runCalls_preserves_absent_of_no_success (k : Hash32) (cs : List Call)
    (env : Env) (habs : storageHas env.store k = false)
    (hns : runSucceedsFor env cs k = false) :
    storageHas (runCalls env cs).store k = false := by
  induction cs generalizing env with
  | nil => simpa [runCalls] using habs
  | cons c rest ih =>
      simp only [runSucceedsFor, Bool.or_eq_false_iff] at hns
      simp only [runCalls, List.foldl_cons]
      exact ih _ (applyCall_preserves_absent env c k habs hns.1) hns.2

theorem commit_preserves_get_some (env : Env) (h0 r s : Hash32) (e : Nat)
    (k : Hash32) (c : RouteCommitment)
    (hc : storageGet env.store k = some c) :
    storageGet (commit_route env h0 r s e).2.store k = some c := by
  rcases hres : (commit_route env h0 r s e).1 with err | u
  · rw [commit_route_err_env _ _ _ _ _ err hres]
    exact hc
  · cases u
    rw [commit_route_ok_env _ _ _ _ _ hres]
    exact storageGet_some_preserved _ _ _ _ _ hc

theorem runCalls_preserves_get_some (k : Hash32) (c : RouteCommitment)
    (cs : List Call) (env : Env) (hc : storageGet env.store k = some c) :
    storageGet (runCalls env cs).store k = some c := by
  induction cs generalizing env with
  | nil => simpa [runCalls] using hc
  | cons cl rest ih =>
      simp only [runCalls, List.foldl_cons, applyCall]
      exact ih _ (commit_preserves_get_some _ _ _ _ _ k c hc)

/-- Claim C9: on a key for which no successful `commit_route` has occurred
since deployment, `get_commit` returns `NotFound` and `has_commit` returns
`false`.  (Both queries are pure reads in this embedding, mirroring that the
source only issues storage reads: they take the environment and return a
value, so neither can mutate the store.) -/
theorem c9_unwritten_key_queries (t : Nat) (self caller : Address)
    (cs : List Call) (k : Hash32)
    (h : runSucceedsFor (initEnv t self caller) cs k = false) :
    get_commit (runCalls (initEnv t self caller) cs) k =
        Except.error RegistryError.NotFound ∧
      has_commit (runCalls (initEnv t self caller) cs) k = false := by
  have habs : storageHas (runCalls (initEnv t self caller) cs).store k = false :=
    runCalls_preserves_absent_of_no_success k cs _
      (by simp [initEnv, storageHas]) h
  have hnone : storageGet (runCalls (initEnv t self caller) cs).store k = none :=
    (storageGet_none_iff_has_false _ _).2 habs
  exact ⟨by simp [get_commit, hnone], habs⟩

theorem c9_unwritten_key_queries_witness :
    runSucceedsFor (initEnv 1700000000 7 9)
        [{ route_hash := sampleHash 5, rules_hash := sampleHash 2,
           solver_version_hash := sampleHash 3, expiry := 1,
           time := 1700000000 },
         { route_hash := sampleHash 1, rules_hash := sampleHash 2,
           solver_version_hash := sampleHash 3, expiry := 0,
           time := 1700000000 }] (sampleHash 5) = false ∧
      get_commit
          (runCalls (initEnv 1700000000 7 9)
            [{ route_hash := sampleHash 5, rules_hash := sampleHash 2,
               solver_version_hash := sampleHash 3, expiry := 1,
               time := 1700000000 },
             { route_hash := sampleHash 1, rules_hash := sampleHash 2,
               solver_version_hash := sampleHash 3, expiry := 0,
               time := 1700000000 }]) (sampleHash 5) =
        Except.error RegistryError.NotFound :=
  ⟨by decide,
   (c9_unwritten_key_queries 1700000000 7 9 _ (sampleHash 5) (by decide)).1⟩

/-- Claim C1: after a successful `commit_route(k, r, s, e)` executed when the
host clock reads `env.timestamp`, `has_commit k` is true and `get_commit k`
returns `Ok` of a commitment whose `rules_hash` is `r`, `solver_version_hash`
is `s`, `timestamp` is the host clock reading (never caller-supplied), and
`expiry` is `e`. -/
theorem c1_commit_then_query (env : Env) (k r s : Hash32) (e : Nat)
    (h : (commit_route env k r s e).1 = Except.ok ()) :
    has_commit (commit_route env k r s e).2 k = true ∧
      get_commit (commit_route env k r s e).2 k =
        Except.ok
          { rules_hash := r, solver_version_hash := s,
            committer := env.contract_address,
            timestamp := env.timestamp, expiry := e } := by
  have hcond := commit_route_ok_conditions env k r s e h
  rw [commit_route_ok_env env k r s e h]
  have hget := storageGet_append_new env.store k (newCommitment env r s e) hcond.2
  constructor
  · simp [has_commit, storageHas_append_single]
  · simp only [get_commit]
    rw [hget]
    rfl

theorem c1_commit_then_query_witness :
    (commit_route envSample (sampleHash 1) (sampleHash 2) (sampleHash 3) 0).1 =
        Except.ok () ∧
      has_commit
          (commit_route envSample (sampleHash 1) (sampleHash 2) (sampleHash 3) 0).2
          (sampleHash 1) = true ∧
      get_commit
          (commit_route envSample (sampleHash 1) (sampleHash 2) (sampleHash 3) 0).2
          (sampleHash 1) =
        Except.ok
          { rules_hash := sampleHash 2, solver_version_hash := sampleHash 3,
            committer := envSample.contract_address,
            timestamp := envSample.timestamp, expiry := 0 } :=
  ⟨by rfl,
   (c1_commit_then_query envSample (sampleHash 1) (sampleHash 2) (sampleHash 3)
      0 (by rfl)).1,
   (c1_commit_then_query envSample (sampleHash 1) (sampleHash 2) (sampleHash 3)
      0 (by rfl)).2⟩

/-- Claim C3: on every successful `commit_route`, the `committer` field of
the stored commitment is the registry contract's own address
(`env.current_contract_address()`), not the invoking caller's identity:
whenever caller and contract address differ, the stored committer differs
from the caller. -/
theorem c3_committer_is_contract_self (env : Env) (k r s : Hash32) (e : Nat)
    (h : (commit_route env k r s e).1 = Except.ok ()) :
    get_commit (commit_route env k r s e).2 k =
        Except.ok (newCommitment env r s e) ∧
      (newCommitment env r s e).committer = env.contract_address ∧
      (env.caller ≠ env.contract_address →
        (newCommitment env r s e).committer ≠ env.caller) := by
  have hcond := commit_route_ok_conditions env k r s e h
  refine ⟨?_, rfl, ?_⟩
  · rw [commit_route_ok_env env k r s e h]
    have hget := storageGet_append_new env.store k (newCommitment env r s e) hcond.2
    simp [get_commit, hget]
  · intro hne heq
    exact hne (heq.symm)

theorem c3_committer_is_contract_self_witness :
    (commit_route envSample (sampleHash 4) (sampleHash 2) (sampleHash 3) 0).1 =
        Except.ok () ∧
      envSample.caller ≠ envSample.contract_address ∧
      get_commit
          (commit_route envSample (sampleHash 4) (sampleHash 2) (sampleHash 3) 0).2
          (sampleHash 4) =
        Except.ok (newCommitment envSample (sampleHash 2) (sampleHash 3) 0) ∧
      (newCommitment envSample (sampleHash 2) (sampleHash 3) 0).committer ≠
        envSample.caller :=
  ⟨by rfl, by decide,
   (c3_committer_is_contract_self envSample (sampleHash 4) (sampleHash 2)
      (sampleHash 3) 0 (by rfl)).1,
   (c3_committer_is_contract_self envSample (sampleHash 4) (sampleHash 2)
      (sampleHash 3) 0 (by rfl)).2.2 (by decide)⟩

/-- Claim C2: once `commit_route(k, r, s, e)` has succeeded, the stored
commitment for `k` survives any further sequence of calls unchanged (the
registry is append-only: nothing overwrites, mutates or deletes it), and any
subsequent `commit_route` on `k` — whatever its other arguments and the
clock — fails with `DuplicateCommitment`. -/
theorem c2_append_only (env : Env) (k r s : Hash32) (e : Nat)
    (h : (commit_route env k r s e).1 = Except.ok ()) :
    (∀ cs, storageGet (runCalls (commit_route env k r s e).2 cs).store k =
        some (newCommitment env r s e)) ∧
      (∀ cs t2 r2 s2 e2,
        (commit_route
            { runCalls (commit_route env k r s e).2 cs with timestamp := t2 }
            k r2 s2 e2).1 =
          Except.error RegistryError.DuplicateCommitment) := by
  have hcond := commit_route_ok_conditions env k r s e h
  have hget0 : storageGet (commit_route env k r s e).2.store k =
      some (newCommitment env r s e) := by
    rw [commit_route_ok_env env k r s e h]
    exact storageGet_append_new env.store k _ hcond.2
  constructor
  · intro cs
    exact runCalls_preserves_get_some k _ cs _ hget0
  · intro cs t2 r2 s2 e2
    have hhas : storageHas
        (runCalls (commit_route env k r s e).2 cs).store k = true :=
      storageHas_of_get_some _ _ _ (runCalls_preserves_get_some k _ cs _ hget0)
    rw [commit_route_spec]
    simp [hcond.1, hhas]

theorem c2_append_only_witness :
    (commit_route envSample (sampleHash 1) (sampleHash 2) (sampleHash 3) 0).1 =
        Except.ok () ∧
      storageGet
          (runCalls (commit_route envSample (sampleHash 1) (sampleHash 2)
            (sampleHash 3) 0).2 []).store (sampleHash 1) =
        some (newCommitment envSample (sampleHash 2) (sampleHash 3) 0) ∧
      (commit_route
          { runCalls (commit_route envSample (sampleHash 1) (sampleHash 2)
              (sampleHash 3) 0).2 [] with timestamp := 1700000001 }
          (sampleHash 1) (sampleHash 4) (sampleHash 5) 0).1 =
        Except.error RegistryError.DuplicateCommitment :=
  ⟨by rfl,
   (c2_append_only envSample (sampleHash 1) (sampleHash 2) (sampleHash 3) 0
      (by rfl)).1 [],
   (c2_append_only envSample (sampleHash 1) (sampleHash 2) (sampleHash 3) 0
      (by rfl)).2 [] 1700000001 (sampleHash 4) (sampleHash 5) 0⟩

/-- Claim C4: `verify_commit(k, r, s)` returns `true` iff a commitment for
`k` exists and its stored `rules_hash` equals `r` and its stored
`solver_version_hash` equals `s`.  It is a total Boolean function of the
state — on absence or any mismatch it returns `false`, never an error. -/
theorem c4_verify_commit_iff (env : Env) (k r s : Hash32) :
    verify_commit env k r s = true ↔
      ∃ c, storageGet env.store k = some c ∧
        c.rules_hash = r ∧ c.solver_version_hash = s := by
  unfold verify_commit get_commit
  rcases hg : storageGet env.store k with _ | c
  · simp [hg]
  · simp [hg, Bool.and_eq_true, beq_iff_eq]

/-- The Validation Engine exactly as the spec states it (§4.1):
`validate(route_hash, expiry, now, key_exists)` runs four checks in a fixed
order, short-circuiting on the first failure, with the far-expiry bound
written as the mathematical `expiry > now + MAX_EXPIRY_DURATION`. -/
def validateSpec (zero key_exists : Bool) (expiry now : Nat) :
    Option RegistryError :=
  if zero then some RegistryError.EmptyRouteHash
  else if key_exists then some RegistryError.DuplicateCommitment
  else if expiry ≠ 0 ∧ expiry ≤ now then some RegistryError.ExpiredTimestamp
  else if expiry ≠ 0 ∧ expiry > now + MAX_EXPIRY_DURATION then
    some RegistryError.ExpiryTooFar
  else none

/-- Claim C5: `commit_route` runs its four validation checks in the spec's
fixed order, short-circuiting on the first failure, so an input violating
several checks observes the error of the earliest violated one (e.g. an
all-zero key that is also a duplicate yields `EmptyRouteHash`).  Stated as a
refinement: the result of `commit_route` agrees with the spec's ordered
`validate`, under the precondition that the clock is far enough from
`u64::MAX` for the far-expiry addition not to overflow. -/
theorem c5_check_order (env : Env) (k r s : Hash32) (e : Nat)
    (hnow : env.timestamp + MAX_EXPIRY_DURATION < U64_MOD) :
    (commit_route env k r s e).1 =
      match validateSpec (is_zero_hash k) (storageHas env.store k) e
          env.timestamp with
      | some err => Except.error err
      | none => Except.ok () := by
  have hwrap : wrappingAdd64 env.timestamp MAX_EXPIRY_DURATION =
      env.timestamp + MAX_EXPIRY_DURATION := Nat.mod_eq_of_lt hnow
  rw [commit_route_spec]
  unfold validateSpec
  simp only [expiryTooFarGuard, hwrap, decide_eq_true_eq]
  by_cases h1 : is_zero_hash k = true <;>
    by_cases h2 : storageHas env.store k = true <;>
      by_cases h3 : e ≠ 0 ∧ e ≤ env.timestamp <;>
        by_cases h4 : e ≠ 0 ∧ e > env.timestamp + MAX_EXPIRY_DURATION <;>
          simp [h1, h2, h3, h4] <;> split <;> rfl

/-- A state whose store already holds an entry under the all-zero key:
used to witness that for an input violating both check 1 (zero key) and
check 2 (duplicate), the earlier check's error is returned. -/
def envDup : Env :=
  { store := [(zeroHash, newCommitment envSample (sampleHash 2) (sampleHash 3) 0)],
    timestamp := 1700000000, contract_address := 7, caller := 9, events := [] }

theorem c5_check_order_witness :
    envDup.timestamp + MAX_EXPIRY_DURATION < U64_MOD ∧
      (commit_route envDup zeroHash (sampleHash 2) (sampleHash 3) 5).1 =
        match validateSpec (is_zero_hash zeroHash)
            (storageHas envDup.store zeroHash) 5 envDup.timestamp with
        | some err => Except.error err
        | none => Except.ok () :=
  ⟨by decide,
   c5_check_order envDup zeroHash (sampleHash 2) (sampleHash 3) 5 (by decide)⟩

/-- Claim C6: on a fresh nonzero key, a nonzero `expiry ≤ now` fails with
`ExpiredTimestamp` and a (`u64`-representable) `expiry > now +
MAX_EXPIRY_DURATION` (the constant being 315,360,000) fails with
`ExpiryTooFar`; for `expiry = 0` both time-window checks are skipped and the
insertion succeeds. -/
theorem c6_expiry_window (env : Env) (k r s : Hash32) (e : Nat)
    (hz : is_zero_hash k = false) (hfresh : storageHas env.store k = false) :
    MAX_EXPIRY_DURATION = 315360000 ∧
      (e ≠ 0 → e ≤ env.timestamp →
        (commit_route env k r s e).1 =
          Except.error RegistryError.ExpiredTimestamp) ∧
      (e < U64_MOD → e > env.timestamp + MAX_EXPIRY_DURATION →
        (commit_route env k r s e).1 =
          Except.error RegistryError.ExpiryTooFar) ∧
      (e = 0 → (commit_route env k r s e).1 = Except.ok ()) := by
  refine ⟨rfl, ?_, ?_, ?_⟩
  · intro hne hle
    rw [commit_route_spec]
    simp [hz, hfresh, hne, hle]
  · intro hlt hgt
    have he0 : e ≠ 0 := by omega
    have hnotle : ¬ e ≤ env.timestamp := by omega
    have hnow : env.timestamp + MAX_EXPIRY_DURATION < U64_MOD := by omega
    have hguard : expiryTooFarGuard e env.timestamp = true := by
      simp [expiryTooFarGuard, wrappingAdd64, Nat.mod_eq_of_lt hnow, hgt]
    rw [commit_route_spec]
    simp [hz, hfresh, he0, hnotle, hguard]
  · intro he0
    rw [commit_route_spec]
    simp [hz, hfresh, he0]

theorem c6_expiry_window_witness :
    is_zero_hash (sampleHash 1) = false ∧
      storageHas envSample.store (sampleHash 1) = false ∧
      (commit_route envSample (sampleHash 1) (sampleHash 2) (sampleHash 3)
          1699999999).1 = Except.error RegistryError.ExpiredTimestamp ∧
      (commit_route envSample (sampleHash 1) (sampleHash 2) (sampleHash 3)
          2015360001).1 = Except.error RegistryError.ExpiryTooFar ∧
      (commit_route envSample (sampleHash 1) (sampleHash 2) (sampleHash 3)
          0).1 = Except.ok () :=
  ⟨by decide, by decide,
   (c6_expiry_window envSample (sampleHash 1) (sampleHash 2) (sampleHash 3)
      1699999999 (by decide) (by decide)).2.1 (by decide) (by decide),
   (c6_expiry_window envSample (sampleHash 1) (sampleHash 2) (sampleHash 3)
      2015360001 (by decide) (by decide)).2.2.1 (by decide) (by decide),
   (c6_expiry_window envSample (sampleHash 1) (sampleHash 2) (sampleHash 3)
      0 (by decide) (by decide)).2.2.2 rfl⟩

/-- Claim C10: the `ExpiryTooFar` guard performs `timestamp +
MAX_EXPIRY_DURATION` as an unchecked `u64` addition.  For every clock
reading `now ≤ u64::MAX - 315,360,000` the guard exactly decides
`expiry > now + 315,360,000`; for `now > u64::MAX - 315,360,000` the
addition exceeds `u64::MAX` — it overflows, and in the wrapping build
modelled here the guard compares against `now + MAX_EXPIRY_DURATION -
2^64` instead of the mathematical sum. -/
theorem c10_unchecked_add_overflow (e now : Nat) (hnow : now < U64_MOD) :
    (now ≤ U64_MOD - 1 - MAX_EXPIRY_DURATION →
        (expiryTooFarGuard e now = true ↔ e > now + MAX_EXPIRY_DURATION)) ∧
      (now > U64_MOD - 1 - MAX_EXPIRY_DURATION →
        now + MAX_EXPIRY_DURATION ≥ U64_MOD ∧
          wrappingAdd64 now MAX_EXPIRY_DURATION =
            now + MAX_EXPIRY_DURATION - U64_MOD) := by
  constructor
  · intro hle
    have h1 : now + MAX_EXPIRY_DURATION < U64_MOD := by
      unfold MAX_EXPIRY_DURATION U64_MOD at *
      omega
    simp [expiryTooFarGuard, wrappingAdd64, Nat.mod_eq_of_lt h1]
  · intro hgt
    have h2 : now + MAX_EXPIRY_DURATION ≥ U64_MOD := by
      unfold MAX_EXPIRY_DURATION U64_MOD at *
      omega
    refine ⟨h2, ?_⟩
    unfold wrappingAdd64
    unfold MAX_EXPIRY_DURATION U64_MOD at *
    omega

theorem c10_unchecked_add_overflow_witness :
    (18446744073709551615 : Nat) < U64_MOD ∧
      ((18446744073709551615 : Nat) ≤ U64_MOD - 1 - MAX_EXPIRY_DURATION →
        (expiryTooFarGuard 7 18446744073709551615 = true ↔
          7 > 18446744073709551615 + MAX_EXPIRY_DURATION)) ∧
      ((18446744073709551615 : Nat) > U64_MOD - 1 - MAX_EXPIRY_DURATION →
        18446744073709551615 + MAX_EXPIRY_DURATION ≥ U64_MOD ∧
          wrappingAdd64 18446744073709551615 MAX_EXPIRY_DURATION =
            18446744073709551615 + MAX_EXPIRY_DURATION - U64_MOD) :=
  ⟨by decide,
   (c10_unchecked_add_overflow 7 18446744073709551615 (by decide)).1,
   (c10_unchecked_add_overflow 7 18446744073709551615 (by decide)).2⟩
